import Mathlib

/-!
Shallow embedding of the `execution` layer of the repository
(`execution/local_server.py`, `execution/_template.py`) and of the
spec-described RAG pipeline (chunk builder, rerank, query), together with
theorems settling the specification claims.

External effects (subprocess runs, file system, the Anthropic API) are
modelled as explicit environment parameters: each run of an external call
is one value of an outcome type, and functions that in Python perform the
call instead consume the outcome from the environment.  Control flow,
return values and the contents of every returned dict are translated
directly from the Python source.
-/

namespace Spec2Proof

/-- Outcome of one `subprocess.run` call: it completed with a return code
and captured stdout/stderr, it hit the `timeout` (raising
`subprocess.TimeoutExpired`), or it raised some other exception. -/
inductive SubprocOutcome where
  | completed (returncode : Int) (stdout : String) (stderr : String)
  | timedOut
  | raised (msg : String)
deriving DecidableEq

/-- Python `s[-n:] if s else ""`: the last `n` characters of `s` (all of
`s` when it is shorter, `""` when `s` is empty). -/
def tailStr (s : String) (n : Nat) : String := s.drop (s.length - n)

/-! ## execution/_template.py -/

/-- Embedding of the function main() in _template.py.  The placeholder script body
is a parameter: `Except.ok u` means the body ran to its end printing the
lines `u`, `Except.error e` means it raised an exception whose `str` is
`e`.  Returns (exit code, stdout lines, stderr lines): on success the
template prints its success line and returns 0; on an exception it prints
an `Error: <message>` line to stderr and returns 1. -/
def template_main (body : Except String (List String)) : Nat × List String × List String :=
  match body with
  | .ok outLines => (0, outLines ++ ["Script executed successfully"], [])
  | .error e => (1, [], ["Error: " ++ e])

/-- Embedding of the `if __name__ == "__main__"` block: the process exits
with the return value of main() (sys.exit(exit_code)). -/
def template_process_exit (body : Except String (List String)) : Nat :=
  (template_main body).1

/-! ## run_upwork_scrape_apply (local_server.py lines 205-303) -/

/-- One entry of the `results["steps"]` list before the final cleaning
pass: step name, returncode, truncated stdout and stderr. -/
structure StepRecord where
  step : String
  returncode : Int
  stdout : String
  stderr : String
deriving DecidableEq

/-- The `steps` field of the returned dict: the early-return paths return
the raw step records; the end of the function replaces them with cleaned
`(step, "ok" | "failed")` pairs. -/
inductive StepsField where
  | raw (steps : List StepRecord)
  | cleaned (steps : List (String × String))
deriving DecidableEq

/-- The dict returned by `run_upwork_scrape_apply`.  `Option` fields model
dict keys that the code sets only on some paths (`none` = key absent). -/
structure UpworkResults where
  steps : StepsField
  errors : List String
  jobs_processed : Option Nat
  sheet_url : Option String
  status : Option String
deriving DecidableEq

/-- Environment for one run of the pipeline: the outcome of the scrape
subprocess, the outcome of the proposal subprocess, the state of the
`.tmp/upwork_jobs_with_proposals.json` output file (`none` = absent,
`some (.error ())` = present but `json.load` raises, `some (.ok n)` =
loads with `n` jobs), and the result of the sheet-URL regex search on a
given stdout string. -/
structure UpworkEnv where
  scrape : SubprocOutcome
  proposal : SubprocOutcome
  outputFile : Option (Except Unit Nat)
  sheetMatch : String → Option String

/-- Python truthiness of `results.get("jobs_processed")`: the key is
present and its value is nonzero. -/
def jobsTruthy : Option Nat → Bool
  | some n => n != 0
  | none => false

/-- Line 298: `"success" if not errors else "partial" if
results.get("jobs_processed") else "failed"`. -/
def statusOf (errors : List String) (jobs : Option Nat) : String :=
  if errors = [] then "success" else if jobsTruthy jobs then "partial" else "failed"

/-- Line 301: replace each step record by
`(step, "ok" if returncode == 0 else "failed")`. -/
def cleanSteps (steps : List StepRecord) : List (String × String) :=
  steps.map (fun s => (s.step, if s.returncode = 0 then "ok" else "failed"))

/-- Lines 281-303: the tail of `run_upwork_scrape_apply` that every
non-early-return path reaches: load `jobs_processed` from the output
file, extract the sheet URL from the stdout of the last step, set `status`,
and clean the steps list. -/
def finishPipeline (env : UpworkEnv) (steps : List StepRecord) (errors : List String) :
    UpworkResults :=
  let jobs : Option Nat :=
    match env.outputFile with
    | some (Except.ok n) => some n
    | _ => none
  let lastOut : String :=
    match steps.getLast? with
    | some s => s.stdout
    | none => ""
  { steps := .cleaned (cleanSteps steps)
    errors := errors
    jobs_processed := jobs
    sheet_url := env.sheetMatch lastOut
    status := some (statusOf errors jobs) }

/-- Embedding of `run_upwork_scrape_apply` (lines 205-303).  Step 1 runs
the scraper; a nonzero return code, a timeout or an exception records an
error and returns immediately (no `status` key, raw steps).  Step 2 runs
the proposal generator; its timeout or exception is recorded and the
function continues to `finishPipeline`. -/
def run_upwork_scrape_apply (env : UpworkEnv) : UpworkResults :=
  match env.scrape with
  | .timedOut =>
      ⟨.raw [], ["Scrape timed out after 5 minutes"], none, none, none⟩
  | .raised msg =>
      ⟨.raw [], ["Scrape error: " ++ msg], none, none, none⟩
  | .completed rc out err =>
      let step1 : StepRecord := ⟨"scrape", rc, tailStr out 2000, tailStr err 1000⟩
      if rc ≠ 0 then
        ⟨.raw [step1], ["Scrape failed: " ++ err], none, none, none⟩
      else
        match env.proposal with
        | .completed rc2 out2 err2 =>
            let step2 : StepRecord := ⟨"proposals", rc2, tailStr out2 2000, tailStr err2 1000⟩
            let errs := if rc2 ≠ 0 then ["Proposal generation failed: " ++ err2] else []
            finishPipeline env [step1, step2] errs
        | .timedOut =>
            finishPipeline env [step1] ["Proposal generation timed out after 30 minutes"]
        | .raised msg =>
            finishPipeline env [step1] ["Proposal error: " ++ msg]

/-! ## run_script (local_server.py lines 309-342) -/

/-- Keys of the `SCRIPT_HANDLERS` dict (line 203 and 306). -/
def SCRIPT_HANDLERS_KEYS : List String := ["upwork_scrape_apply"]

/-- The dict returned by `run_script`: a handler result, an
`{"error": msg}` dict, or the status dict of the generic runner. -/
inductive ScriptResult where
  | handler (r : UpworkResults)
  | errorRes (msg : String)
  | runRes (status : String) (returncode : Int) (stdout : String) (stderr : String)
deriving DecidableEq

/-- Environment for one `run_script` call: the environment the
`upwork_scrape_apply` handler would run in, whether
`execution/<name>.py` exists, and the outcome of the generic
`subprocess.run` call. -/
structure ScriptEnv where
  upwork : UpworkEnv
  fileExists : String → Bool
  generic : SubprocOutcome

/-- Number of subprocesses `run_upwork_scrape_apply` launches: the scrape
process always, the proposal process only when the scrape completed with
return code 0. -/
def upworkLaunches (env : UpworkEnv) : Nat :=
  match env.scrape with
  | .completed rc _ _ => if rc = 0 then 2 else 1
  | _ => 1

/-- Embedding of `run_script` (lines 309-342).  Returns the result dict
paired with the number of subprocesses launched.  A name in
`SCRIPT_HANDLERS` dispatches to its handler; otherwise a missing
`execution/<name>.py` returns an error dict with no subprocess; otherwise
the generic runner runs the script, mapping a timeout or exception to a
returned error dict. -/
def run_script (env : ScriptEnv) (script_name : String) : ScriptResult × Nat :=
  if script_name ∈ SCRIPT_HANDLERS_KEYS then
    (.handler (run_upwork_scrape_apply env.upwork), upworkLaunches env.upwork)
  else if env.fileExists script_name then
    match env.generic with
    | .completed rc out err =>
        (.runRes (if rc = 0 then "success" else "failed") rc (tailStr out 3000) (tailStr err 1000), 1)
    | .timedOut => (.errorRes "Script timed out after 10 minutes", 1)
    | .raised msg => (.errorRes msg, 1)
  else
    (.errorRes ("Script not found: " ++ script_name ++ ".py"), 0)

/-- Line 558: `result.get("status", "completed")` on the dict returned by
`run_script`. -/
def scriptResultStatus : ScriptResult → String
  | .handler r => r.status.getD "completed"
  | .errorRes _ => "completed"
  | .runRes s _ _ _ => s

/-! ## run_directive (local_server.py lines 365-492) -/

/-- Keys of the `TOOL_IMPLEMENTATIONS` dict (lines 151-155). -/
def TOOL_IMPLEMENTATION_KEYS : List String := ["send_email", "read_sheet", "update_sheet"]

/-- A `tool_use` content block: tool name, JSON-encoded input, block id. -/
structure ToolUseBlock where
  name : String
  input : String
  id : String
deriving DecidableEq

/-- A content block of a model response. -/
inductive Block where
  | thinking (t : String)
  | text (t : String)
  | toolUse (tu : ToolUseBlock)
deriving DecidableEq

/-- One response of `client.messages.create`. -/
structure ModelResponse where
  stop_reason : String
  content : List Block
  input_tokens : Nat
  output_tokens : Nat
deriving DecidableEq

/-- The `tool_result` string sent back to the model:
`json.dumps({"error": msg})` or the JSON dump of a successful tool
result. -/
inductive ToolResult where
  | errDict (msg : String)
  | okDict (payload : String)
deriving DecidableEq

/-- What one loop turn did with its `tool_use` block: the `tool_result`,
the `is_error` flag, and whether a tool implementation was actually
invoked. -/
structure ToolTurn where
  result : ToolResult
  is_error : Bool
  executed : Bool
deriving DecidableEq

/-- A record of one loop turn that found a `tool_use` block. -/
structure TurnRecord where
  turn : Nat
  toolName : String
  toolInput : String
  result : ToolResult
  is_error : Bool
  executed : Bool
deriving DecidableEq

/-- A tool implementation actually invoked: name and input. -/
structure Invocation where
  name : String
  input : String
deriving DecidableEq

/-- Line 424: `next((b for b in response.content if b.type == "tool_use"), None)`. -/
def findToolUse : List Block → Option ToolUseBlock
  | [] => none
  | .toolUse tu :: _ => some tu
  | _ :: rest => findToolUse rest

/-- Lines 428-449: the per-turn security check and tool dispatch.  A name
outside `allowed_tools` gets a "not permitted" error result and no
lookup or call; an allowed name is looked up in `TOOL_IMPLEMENTATIONS`
and, when an implementation exists, invoked (`execTool` gives the
outcome of the invocation: `.ok` a JSON payload, `.error` an exception
message); an allowed name with no implementation gets a
"No implementation" error result. -/
def processToolUse (execTool : String → String → Except String String)
    (allowed : List String) (tu : ToolUseBlock) : ToolTurn :=
  if tu.name ∈ allowed then
    if tu.name ∈ TOOL_IMPLEMENTATION_KEYS then
      match execTool tu.name tu.input with
      | .ok r => ⟨.okDict r, false, true⟩
      | .error e => ⟨.errDict e, true, true⟩
    else ⟨.errDict ("No implementation for " ++ tu.name), true, false⟩
  else ⟨.errDict ("Tool " ++ tu.name ++ " not permitted"), true, false⟩

/-- Mutable state of the `run_directive` loop, plus instrumentation:
`records` logs every turn that processed a `tool_use` block and
`invocations` logs every actual tool-implementation call. -/
structure LoopState where
  turn_count : Nat
  api_calls : Nat
  records : List TurnRecord
  invocations : List Invocation
  input_tokens : Nat
  output_tokens : Nat
deriving DecidableEq

/-- The state update of one loop turn that processed a `tool_use` block
`tu` with outcome `t` and then received the follow-up response
`resp2`: increment the turn and call counters, log the turn record and
any tool invocation, accumulate token usage. -/
def loopStateStep (st : LoopState) (tu : ToolUseBlock) (t : ToolTurn)
    (resp2 : ModelResponse) : LoopState :=
  { turn_count := st.turn_count + 1
    api_calls := st.api_calls + 1
    records := st.records ++
      [⟨st.turn_count + 1, tu.name, tu.input, t.result, t.is_error, t.executed⟩]
    invocations := st.invocations ++
      (if t.executed then [⟨tu.name, tu.input⟩] else [])
    input_tokens := st.input_tokens + resp2.input_tokens
    output_tokens := st.output_tokens + resp2.output_tokens }

/-- Lines 414-469: the `while response.stop_reason == "tool_use" and
turn_count < max_turns` loop.  `fuel` is `max_turns - turn_count`; the
`oracle` gives the response of the `i`-th `client.messages.create` call
(the call before the loop is call 0). -/
def directiveLoop (oracle : Nat → ModelResponse)
    (execTool : String → String → Except String String) (allowed : List String) :
    Nat → ModelResponse → LoopState → ModelResponse × LoopState
  | 0, resp, st => (resp, st)
  | fuel + 1, resp, st =>
      if resp.stop_reason = "tool_use" then
        match findToolUse resp.content with
        | none => (resp, { st with turn_count := st.turn_count + 1 })
        | some tu =>
            directiveLoop oracle execTool allowed fuel (oracle st.api_calls)
              (loopStateStep st tu (processToolUse execTool allowed tu) (oracle st.api_calls))
      else (resp, st)

/-- Embedding of `run_directive` (lines 365-492): the initial model call
(oracle call 0) followed by the bounded tool-use loop.  The returned
`LoopState` carries `turn_count` (the `turns` field of the returned
usage), the total number of API calls made, and the instrumentation
logs. -/
def run_directive (oracle : Nat → ModelResponse)
    (execTool : String → String → Except String String)
    (allowed : List String) (max_turns : Nat) : ModelResponse × LoopState :=
  let r0 := oracle 0
  directiveLoop oracle execTool allowed max_turns r0
    ⟨0, 1, [], [], r0.input_tokens, r0.output_tokens⟩

/-! ## Webhook endpoint (local_server.py lines 349-354, 531-607) -/

/-- One entry of the `webhooks` mapping in `execution/webhooks.json`
(`none` models an absent key). -/
structure WebhookCfg where
  directive : Option String
  script : Option String
  tools : Option (List String)
  description : Option String

/-- Embedding of `load_webhook_config` followed by
`config.get("webhooks", {})`: when `execution/webhooks.json` is absent
the mapping is empty, otherwise it is the webhooks mapping of the file
(modelled as an association list). -/
def load_webhook_config (file : Option (List (String × WebhookCfg))) :
    List (String × WebhookCfg) :=
  match file with
  | none => []
  | some ws => ws

/-- Server-level environment for one `POST /webhook/{slug}` request: the
webhook config file, the script-execution environment, the contents of
`directives/<name>.md` files, and the model/tool environment of
`run_directive`. -/
structure ServerEnv where
  webhookFile : Option (List (String × WebhookCfg))
  scriptEnv : ScriptEnv
  directiveFile : String → Option String
  oracle : Nat → ModelResponse
  execTool : String → String → Except String String

/-- The JSON body returned by a successful `execute_webhook`. -/
inductive WebhookResponse where
  | scriptResp (status : String) (slug : String) (script : String) (result : ScriptResult)
  | directiveResp (slug : String) (directive : String) (finalResponse : ModelResponse)
      (st : LoopState)

/-- Which executions the request performed. -/
structure WebhookEffects where
  ranScript : Bool
  ranDirective : Bool
deriving DecidableEq

/-- Embedding of `execute_webhook` (lines 531-607).  `Except.error (s, d)`
models `HTTPException(status_code=s, detail=d)`.  An unknown slug is a
404 before any script or directive work; a script-type webhook runs
`run_script`; a directive-type webhook loads the directive file (404 when
missing) and runs `run_directive` with the configured tools
(default `["send_email"]`). -/
def execute_webhook (env : ServerEnv) (slug : String) (max_turns : Nat) :
    Except (Nat × String) WebhookResponse × WebhookEffects :=
  let webhooks := load_webhook_config env.webhookFile
  match webhooks.lookup slug with
  | none => (.error (404, "Unknown webhook slug: " ++ slug), ⟨false, false⟩)
  | some cfg =>
      match cfg.script with
      | some script_name =>
          let r := (run_script env.scriptEnv script_name).1
          (.ok (.scriptResp (scriptResultStatus r) slug script_name r), ⟨true, false⟩)
      | none =>
          match cfg.directive with
          | none =>
              (.error (400, "Webhook must have either directive or script defined"),
                ⟨false, false⟩)
          | some dname =>
              match env.directiveFile dname with
              | none => (.error (404, "Directive not found: " ++ dname), ⟨false, false⟩)
              | some _ =>
                  let allowed := cfg.tools.getD ["send_email"]
                  let (resp, st) := run_directive env.oracle env.execTool allowed max_turns
                  (.ok (.directiveResp slug dname resp st), ⟨false, true⟩)

/-! ## RAG pipeline, modelled from the spec

The chunk builder, reranker and query pipeline belong to this repository
but their source is not under `src/`; the definitions below are modelled
from the specification (sections 3, 4.1, 4.3 and 8). -/

/-- A top-level content item (spec section 3, Post). -/
structure Post where
  id : String
  title : String
  author : String
  content : String
  url : String
  created_at : String
  likes : Nat
deriving DecidableEq

/-- A reply attached to a post or to another comment (spec section 3,
Comment); `parent_id = none` or `some ""` means top-level. -/
structure Comment where
  id : String
  post_id : String
  parent_id : Option String
  content : String
  author : String
deriving DecidableEq

/-- A derived aggregate: one top-level comment plus its descendants
(spec section 3, Thread). -/
structure Thread where
  root : Comment
  replies : List Comment
deriving DecidableEq

/-- Metadata attached to every chunk (spec section 3, Chunk). -/
structure ChunkMeta where
  post_id : String
  title : String
  author : String
  url : String
  date : String
  likes : Nat
deriving DecidableEq

/-- A unit of retrievable text (spec section 3, Chunk).  `text` is the
prefixed, embedding-ready text; `text_plain` is the field the spec calls
`text_without_prefix` field. -/
structure Chunk where
  id : String
  text : String
  text_plain : String
  chunk_type : String
  metadata : ChunkMeta
deriving DecidableEq

/-- Modelled from the spec: a concrete deterministic string hash standing
in for the hash function used for chunk ids (the hash implementation is
not under `src/`); folds characters into a bounded accumulator. -/
def hashString (s : String) : Nat :=
  s.foldl (fun h c => (h * 31 + c.toNat) % 1000000007) 7

/-- Modelled from the spec: `id = truncated hash of post_id + first 100
chars of its text` (spec sections 3 and 4.1). -/
def chunk_id (post_id : String) (text : String) : String :=
  toString (hashString (post_id ++ text.take 100))

/-- A comment is top-level when `parent_id` is null or empty
(spec section 4.1). -/
def isTopLevel (c : Comment) : Bool :=
  match c.parent_id with
  | none => true
  | some p => p == ""

/-- Comments whose `parent_id` equals `pid`. -/
def childrenOf (comments : List Comment) (pid : String) : List Comment :=
  comments.filter (fun c =>
    match c.parent_id with
    | some q => q == pid
    | none => false)

/-- Depth-first collection of all comments whose parent chain resolves to
`pid` (spec section 4.1); the fuel bounds the recursion depth, making the unguarded
recursion of the spec terminating on any input. -/
def collectReplies (comments : List Comment) : Nat → String → List Comment
  | 0, _ => []
  | fuel + 1, pid =>
      (childrenOf comments pid).flatMap (fun c => c :: collectReplies comments fuel c.id)

/-- Modelled from the spec: `reconstruct_threads(comments)`
(spec section 4.1) — one Thread per top-level comment, in the original
top-level order, with depth-first collected replies. -/
def reconstruct_threads (comments : List Comment) : List Thread :=
  (comments.filter isTopLevel).map
    (fun root => ⟨root, collectReplies comments comments.length root.id⟩)

/-- Token estimate `len(text) // 4` (spec section 4.1). -/
def estimated_tokens (s : String) : Nat := s.length / 4

/-- Rendering of one comment as `@author: content` (spec section 4.1). -/
def renderComment (c : Comment) : String := "@" ++ c.author ++ ": " ++ c.content

/-- Rendering of one thread: the root comment followed by indented
reply lines (spec section 4.1). -/
def renderThread (t : Thread) : String :=
  renderComment t.root ++
    String.join (t.replies.map (fun c => "\n  └─ " ++ renderComment c))

/-- The post body: title heading plus content (spec section 8,
property 7). -/
def postBody (p : Post) : String := "# " ++ p.title ++ "\n\n" ++ p.content

/-- The `## Discussion` section listing each thread (spec section 4.1);
empty when there are no threads. -/
def discussionSection (threads : List Thread) : String :=
  if threads.isEmpty then ""
  else "\n\n## Discussion\n\n" ++ String.intercalate "\n\n" (threads.map renderThread)

/-- The one-sentence contextual string prefixed to each chunk, naming its
type and source post/author (spec section 4.1). -/
def contextSentence (ctype : String) (p : Post) : String :=
  "Context: this is a " ++ ctype ++ " chunk from the post " ++ p.title ++
    " by " ++ p.author ++ ". "

/-- Build one chunk of the given type from the plain (unprefixed) text:
prefix the contextual sentence, derive the id from post_id and the
prefixed text, attach the post metadata. -/
def mkChunk (ctype : String) (p : Post) (plain : String) : Chunk :=
  let text := contextSentence ctype p ++ plain
  ⟨chunk_id p.id text, text, plain, ctype, ⟨p.id, p.title, p.author, p.url, p.created_at, p.likes⟩⟩

/-- Modelled from the spec: the per-post decision rule of
`create_chunks` (spec section 4.1) — one `post_with_discussion` chunk
when the estimated tokens of the post content plus all threads is below
`max_tokens` and there are at most 5 threads; otherwise one `post` chunk
plus one `thread` chunk per thread whose rendered text has at least 20
characters. -/
def chunksForPost (max_tokens : Nat) (p : Post) (comments : List Comment) : List Chunk :=
  let threads := reconstruct_threads comments
  let total := estimated_tokens p.content +
    (threads.map (fun t => estimated_tokens (renderThread t))).sum
  if total < max_tokens ∧ threads.length ≤ 5 then
    [mkChunk "post_with_discussion" p (postBody p ++ discussionSection threads)]
  else
    mkChunk "post" p (postBody p) ::
      (threads.filter (fun t => 20 ≤ (renderThread t).length)).map
        (fun t => mkChunk "thread" p (renderThread t))

/-- Modelled from the spec: `create_chunks(posts, comments_by_post,
max_tokens)` (spec section 4.1). -/
def create_chunks (posts : List Post) (comments_by_post : String → List Comment)
    (max_tokens : Nat) : List Chunk :=
  posts.flatMap (fun p => chunksForPost max_tokens p (comments_by_post p.id))

/-- A candidate chunk as seen by the query pipeline: the indexed metadata
plus the vector-search similarity score (spec sections 4.3 and the output
contract). -/
structure RChunk where
  id : String
  text : String
  title : String
  author : String
  url : String
  ctype : String
  score : Int
deriving DecidableEq

/-- Insert a rescored candidate into a list sorted by descending
relevance score. -/
def insertDesc (x : Int × RChunk) : List (Int × RChunk) → List (Int × RChunk)
  | [] => [x]
  | y :: ys => if y.1 ≤ x.1 then x :: y :: ys else y :: insertDesc x ys

/-- Sort rescored candidates by descending relevance score. -/
def sortByScore : List (Int × RChunk) → List (Int × RChunk)
  | [] => []
  | x :: xs => insertDesc x (sortByScore xs)

/-- Modelled from the spec: `rerank(query, chunks, top_k)`
(spec section 4.3) — when the reranking API is configured, re-score the
candidates against the query with the cross-encoder (`rescore`) and keep
the top `top_k` by relevance score; otherwise pass through the first
`top_k` of the vector-search ordering unchanged. -/
def rerank (rerankAvailable : Bool) (rescore : String → RChunk → Int)
    (query_text : String) (chunks : List RChunk) (top_k : Nat) : List RChunk :=
  if rerankAvailable then
    ((sortByScore (chunks.map (fun c => (rescore query_text c, c)))).map Prod.snd).take top_k
  else
    chunks.take top_k

/-- Modelled from the spec: the fixed fallback answer returned when
retrieval finds nothing (spec section 4.3). -/
def FALLBACK_ANSWER : String :=
  "I could not find anything relevant to that in the community discussions."

/-- One entry of the output `sources` list (spec section 4.3, output
contract). -/
structure SourceEntry where
  title : String
  url : String
  author : String
  ctype : String
  score : Int
deriving DecidableEq

/-- Environment of one query-pipeline run: `retrieve` is the embed-query
plus top-75 vector search; `rescore` the optional cross-encoder;
`generate` the draft-generation model call (context, question);
`reformat` the second formatting-only model call. -/
structure QueryEnv where
  retrieve : String → List RChunk
  rerankAvailable : Bool
  rescore : String → RChunk → Int
  generate : String → String → String
  reformat : String → String

/-- One numbered Source block: title, type, author and full text
(spec section 4.3, context assembly). -/
def sourceBlock (i : Nat) (c : RChunk) : String :=
  "Source " ++ toString (i + 1) ++ ": " ++ c.title ++ " (" ++ c.ctype ++
    ", by " ++ c.author ++ ")\n" ++ c.text

/-- Context assembly: numbered Source blocks joined by separators, in
rank order (spec section 4.3). -/
def formatContext (chunks : List RChunk) : String :=
  String.intercalate "\n\n---\n\n" (chunks.enum.map (fun p => sourceBlock p.1 p.2))

/-- The output contract `{answer, sources, query}` (spec section 4.3). -/
structure QueryOutput where
  answer : String
  sources : List SourceEntry
  query_text : String
deriving DecidableEq

/-- Modelled from the spec: the `query()` pipeline (spec section 4.3) —
retrieve, short-circuit to the fallback answer on zero chunks, otherwise
rerank to 20, truncate to 15, assemble context, generate a draft and
reformat it.  Returns the output paired with the number of
generation-model calls made (0 on the empty path, 2 otherwise). -/
def query (env : QueryEnv) (q : String) : QueryOutput × Nat :=
  let chunks := env.retrieve q
  if chunks.isEmpty then
    (⟨FALLBACK_ANSWER, [], q⟩, 0)
  else
    let reranked := rerank env.rerankAvailable env.rescore q chunks 20
    let finalChunks := reranked.take 15
    let context := formatContext finalChunks
    let draft := env.generate context q
    let answer := env.reformat draft
    (⟨answer, finalChunks.map (fun c => ⟨c.title, c.url, c.author, c.ctype, c.score⟩), q⟩, 2)

/-! ## Predicates and concrete fixtures used by the theorems -/

/-- The tool-gating property of one turn record: a tool named outside the
allowed list is never executed and yields the "not permitted" error
result, and an executed tool is both allowed and present in
`TOOL_IMPLEMENTATIONS`. -/
def recordOK (allowed : List String) (r : TurnRecord) : Prop :=
  (r.toolName ∉ allowed →
    r.executed = false ∧ r.is_error = true ∧
      r.result = .errDict ("Tool " ++ r.toolName ++ " not permitted"))
  ∧ (r.executed = true → r.toolName ∈ allowed ∧ r.toolName ∈ TOOL_IMPLEMENTATION_KEYS)

/-- The `steps` field is the cleaned list and the status of every entry is
`"ok"` or `"failed"`. -/
def stepsCleanedOkFailed : StepsField → Bool
  | .cleaned l => l.all (fun p => p.2 == "ok" || p.2 == "failed")
  | .raw _ => false

/-- A concrete `tool_use` block naming a tool outside the allowed list. -/
def w1_tu : ToolUseBlock := ⟨"rm_all", "x", "tid1"⟩

/-- A concrete model response requesting the disallowed tool. -/
def w1_respTool : ModelResponse := ⟨"tool_use", [.toolUse w1_tu], 10, 5⟩

/-- A concrete final model response. -/
def w1_respEnd : ModelResponse := ⟨"end_turn", [.text "done"], 3, 2⟩

/-- A concrete oracle: first call requests the disallowed tool, later
calls end the conversation. -/
def w1_oracle : Nat → ModelResponse := fun n => if n = 0 then w1_respTool else w1_respEnd

/-- A concrete tool executor that always succeeds. -/
def w1_exec : String → String → Except String String := fun _ _ => .ok "done"

/-- Pipeline environment where the scrape step times out. -/
def c3_env : UpworkEnv := ⟨.timedOut, .completed 0 "" "", none, fun _ => none⟩

/-- Pipeline environment where the scrape step succeeds and the proposal
step times out. -/
def c3_env1 : UpworkEnv := ⟨.completed 0 "so" "se", .timedOut, some (.ok 3), fun _ => none⟩

/-- Pipeline environment where the scrape step times out (second fixture
for the amended timeout claim). -/
def c3_env2 : UpworkEnv := ⟨.timedOut, .completed 0 "" "", none, fun _ => none⟩

/-- Pipeline environment where the scrape subprocess completes with a
nonzero return code. -/
def c4_env : UpworkEnv := ⟨.completed 1 "out" "boom", .completed 0 "" "", none, fun _ => none⟩

/-- Pipeline environment where both steps complete successfully. -/
def c4_env1 : UpworkEnv := ⟨.completed 0 "a" "b", .completed 0 "c" "d", some (.ok 2), fun _ => none⟩

/-- Pipeline environment where the scrape step times out (fixture for
the amended status claim). -/
def c4_env2 : UpworkEnv := ⟨.timedOut, .completed 0 "" "", none, fun _ => none⟩

/-- The `steps` field is still the raw, uncleaned record list. -/
def stepsRaw : StepsField → Bool
  | .raw _ => true
  | .cleaned _ => false

/-- Pipeline environment where the scrape subprocess raises a non-timeout
exception (fixture for the amended status claim). -/
def c4_env3 : UpworkEnv := ⟨.raised "oops", .completed 0 "" "", none, fun _ => none⟩

/-- Pipeline environment where the scrape subprocess exits with a nonzero
return code (fixture for the amended status claim). -/
def c4_env4 : UpworkEnv := ⟨.completed 1 "o4" "e4", .completed 0 "" "", none, fun _ => none⟩

/-- A default pipeline environment for script-runner fixtures. -/
def defaultUpworkEnv : UpworkEnv := ⟨.completed 0 "" "", .completed 0 "" "", none, fun _ => none⟩

/-- Script environment where no script file exists. -/
def c5_env1 : ScriptEnv := ⟨defaultUpworkEnv, fun _ => false, .completed 0 "" ""⟩

/-- Script environment where the generic runner times out. -/
def c5_env2 : ScriptEnv := ⟨defaultUpworkEnv, fun _ => true, .timedOut⟩

/-- Script environment where the generic runner raises. -/
def c5_env3 : ScriptEnv := ⟨defaultUpworkEnv, fun _ => true, .raised "boom"⟩

/-- Server environment with no `execution/webhooks.json` file. -/
def c7_env : ServerEnv :=
  ⟨none, c5_env1, fun _ => none, fun _ => w1_respEnd, fun _ _ => Except.ok "done"⟩

/-- Query environment whose retrieval returns no chunks. -/
def c10_env : QueryEnv :=
  ⟨fun _ => [], true, fun _ _ => 0, fun _ _ => "draft", fun s => s⟩

/-! ## Theorems -/

/-- C2: main() of the template script returns 0 on success (printing its
success line), and for every exception raised by the script body it
prints an `Error: <message>` line to stderr and returns 1; the process
exits with the return value of main(). -/
theorem c2_template_exit_convention :
    ∀ (outLines : List String) (e : String) (b : Except String (List String)),
      template_main (Except.ok outLines) = (0, outLines ++ ["Script executed successfully"], [])
      ∧ template_main (Except.error e) = (1, [], ["Error: " ++ e])
      ∧ template_process_exit b = (template_main b).1 := by
  intro outLines e b
  exact ⟨rfl, rfl, rfl⟩

/-- C3 counterexample: a `TimeoutExpired` on the scrape step is caught
and recorded, but `run_upwork_scrape_apply` returns immediately — the
steps list stays empty (the proposal step is never run) and the function
never reaches its completion path (no `status` key) — refuting the claim
that a timeout on any step lets the batch continue with partial
results. -/
theorem c3_counterexample :
    c3_env.scrape = SubprocOutcome.timedOut
    ∧ (run_upwork_scrape_apply c3_env).errors = ["Scrape timed out after 5 minutes"]
    ∧ (run_upwork_scrape_apply c3_env).steps = .raw []
    ∧ (run_upwork_scrape_apply c3_env).status = none :=
  ⟨rfl, rfl, rfl, rfl⟩

/-- C3 amended: a `TimeoutExpired` on the proposal step is caught,
recorded in the errors list, and the pipeline continues to its completion
path (a `status` is computed and partial results returned); a
`TimeoutExpired` on the scrape step is caught and recorded but the
function returns immediately, abandoning the remaining steps. -/
theorem c3_amended_timeout_handling (env1 env2 : UpworkEnv) (out err : String)
    (h1 : env1.scrape = .completed 0 out err) (h2 : env1.proposal = .timedOut)
    (h3 : env2.scrape = .timedOut) :
    ((run_upwork_scrape_apply env1).errors = ["Proposal generation timed out after 30 minutes"]
      ∧ (run_upwork_scrape_apply env1).status.isSome = true)
    ∧ ((run_upwork_scrape_apply env2).errors = ["Scrape timed out after 5 minutes"]
      ∧ (run_upwork_scrape_apply env2).status = none
      ∧ (run_upwork_scrape_apply env2).steps = .raw []) := by
  constructor
  · simp [run_upwork_scrape_apply, h1, h2, finishPipeline]
  · simp [run_upwork_scrape_apply, h3]

/-- C3 witness: the amended theorem applied to concrete environments. -/
theorem c3_amended_timeout_handling_witness :
    c3_env1.scrape = .completed 0 "so" "se" ∧ c3_env1.proposal = .timedOut
    ∧ c3_env2.scrape = .timedOut
    ∧ (((run_upwork_scrape_apply c3_env1).errors
          = ["Proposal generation timed out after 30 minutes"]
        ∧ (run_upwork_scrape_apply c3_env1).status.isSome = true)
      ∧ ((run_upwork_scrape_apply c3_env2).errors = ["Scrape timed out after 5 minutes"]
        ∧ (run_upwork_scrape_apply c3_env2).status = none
        ∧ (run_upwork_scrape_apply c3_env2).steps = .raw [])) :=
  ⟨rfl, rfl, rfl, c3_amended_timeout_handling c3_env1 c3_env2 "so" "se" rfl rfl rfl⟩

/-- C4 counterexample: when the scrape subprocess exits with a nonzero
return code, `run_upwork_scrape_apply` records the error but returns a
dict with no `status` key at all — refuting the claim that the function
always returns a dict whose `status` field is
success/partial/failed. -/
theorem c4_counterexample :
    (run_upwork_scrape_apply c4_env).errors = ["Scrape failed: boom"]
    ∧ (run_upwork_scrape_apply c4_env).status = none
    ∧ stepsCleanedOkFailed (run_upwork_scrape_apply c4_env).steps = false :=
  ⟨rfl, rfl, rfl⟩

/-- Every cleaned step entry carries status `"ok"` or `"failed"`. -/
theorem cleanSteps_ok_or_failed (steps : List StepRecord) :
    (cleanSteps steps).all (fun p => p.2 == "ok" || p.2 == "failed") = true := by
  induction steps with
  | nil => rfl
  | cons s rest ih =>
      simp only [cleanSteps, List.map_cons, List.all_cons] at ih ⊢
      rw [Bool.and_eq_true]
      refine ⟨?_, ih⟩
      split <;> rfl

/-- C4 amended: when the scrape step completes with return code 0 the
function reaches its completion path and returns `status = "success"`
exactly when the errors list is empty, `"partial"` when errors occurred
and a nonzero `jobs_processed` count was obtained, and `"failed"`
otherwise, with the outcome of each step recorded as `"ok"` or `"failed"` in
the cleaned steps list; when the scrape step fails (nonzero return
code), times out or raises, the returned dict has no `status` field and
its steps list is still raw and uncleaned. -/
theorem c4_amended_status_summary (env1 env2 env3 env4 : UpworkEnv)
    (out err m out4 err4 : String) (rc : Int)
    (h1 : env1.scrape = .completed 0 out err) (h2 : env2.scrape = .timedOut)
    (h3 : env3.scrape = .raised m)
    (h4 : env4.scrape = .completed rc out4 err4) (h4rc : rc ≠ 0) :
    ((run_upwork_scrape_apply env1).status
        = some (statusOf (run_upwork_scrape_apply env1).errors
            (run_upwork_scrape_apply env1).jobs_processed)
      ∧ stepsCleanedOkFailed (run_upwork_scrape_apply env1).steps = true)
    ∧ ((run_upwork_scrape_apply env2).status = none
      ∧ stepsRaw (run_upwork_scrape_apply env2).steps = true)
    ∧ ((run_upwork_scrape_apply env3).status = none
      ∧ stepsRaw (run_upwork_scrape_apply env3).steps = true)
    ∧ ((run_upwork_scrape_apply env4).status = none
      ∧ stepsRaw (run_upwork_scrape_apply env4).steps = true) := by
  refine ⟨?_, by simp [run_upwork_scrape_apply, h2, stepsRaw],
    by simp [run_upwork_scrape_apply, h3, stepsRaw],
    by simp [run_upwork_scrape_apply, h4, h4rc, stepsRaw]⟩
  cases hp : env1.proposal with
  | completed rc2 out2 err2 =>
      simp [run_upwork_scrape_apply, h1, hp, finishPipeline, stepsCleanedOkFailed,
        cleanSteps_ok_or_failed]
  | timedOut =>
      simp [run_upwork_scrape_apply, h1, hp, finishPipeline, stepsCleanedOkFailed,
        cleanSteps_ok_or_failed]
  | raised msg =>
      simp [run_upwork_scrape_apply, h1, hp, finishPipeline, stepsCleanedOkFailed,
        cleanSteps_ok_or_failed]

/-- C4 witness: the amended theorem applied to concrete environments. -/
theorem c4_amended_status_summary_witness :
    c4_env1.scrape = .completed 0 "a" "b" ∧ c4_env2.scrape = .timedOut
    ∧ c4_env3.scrape = .raised "oops"
    ∧ c4_env4.scrape = .completed 1 "o4" "e4" ∧ (1 : Int) ≠ 0
    ∧ (((run_upwork_scrape_apply c4_env1).status
          = some (statusOf (run_upwork_scrape_apply c4_env1).errors
              (run_upwork_scrape_apply c4_env1).jobs_processed)
        ∧ stepsCleanedOkFailed (run_upwork_scrape_apply c4_env1).steps = true)
      ∧ ((run_upwork_scrape_apply c4_env2).status = none
        ∧ stepsRaw (run_upwork_scrape_apply c4_env2).steps = true)
      ∧ ((run_upwork_scrape_apply c4_env3).status = none
        ∧ stepsRaw (run_upwork_scrape_apply c4_env3).steps = true)
      ∧ ((run_upwork_scrape_apply c4_env4).status = none
        ∧ stepsRaw (run_upwork_scrape_apply c4_env4).steps = true)) :=
  ⟨rfl, rfl, rfl, rfl, by decide,
    c4_amended_status_summary c4_env1 c4_env2 c4_env3 c4_env4 "a" "b" "oops" "o4" "e4" 1
      rfl rfl rfl rfl (by decide)⟩

/-- C5: errors from `run_script` are returned as string values, never
raised: an unknown script name with no matching file returns an
`error` dict and launches no subprocess, and a timeout or exception in
the generic runner returns an `error` dict with the corresponding
message string. -/
theorem c5_errors_are_values (env1 env2 env3 : ScriptEnv) (n1 n2 n3 m : String)
    (h1a : n1 ∉ SCRIPT_HANDLERS_KEYS) (h1b : env1.fileExists n1 = false)
    (h2a : n2 ∉ SCRIPT_HANDLERS_KEYS) (h2b : env2.fileExists n2 = true)
    (h2c : env2.generic = .timedOut)
    (h3a : n3 ∉ SCRIPT_HANDLERS_KEYS) (h3b : env3.fileExists n3 = true)
    (h3c : env3.generic = .raised m) :
    run_script env1 n1 = (.errorRes ("Script not found: " ++ n1 ++ ".py"), 0)
    ∧ (run_script env2 n2).1 = .errorRes "Script timed out after 10 minutes"
    ∧ (run_script env3 n3).1 = .errorRes m := by
  refine ⟨?_, ?_, ?_⟩
  · simp [run_script, h1a, h1b]
  · simp [run_script, h2a, h2b, h2c]
  · simp [run_script, h3a, h3b, h3c]

/-- C5 witness: the theorem applied to concrete script environments. -/
theorem c5_errors_are_values_witness :
    "nope" ∉ SCRIPT_HANDLERS_KEYS
    ∧ c5_env1.fileExists "nope" = false
    ∧ c5_env2.fileExists "nope" = true ∧ c5_env2.generic = .timedOut
    ∧ c5_env3.fileExists "nope" = true ∧ c5_env3.generic = .raised "boom"
    ∧ (run_script c5_env1 "nope" = (.errorRes ("Script not found: " ++ "nope" ++ ".py"), 0)
      ∧ (run_script c5_env2 "nope").1 = .errorRes "Script timed out after 10 minutes"
      ∧ (run_script c5_env3 "nope").1 = .errorRes "boom") :=
  ⟨by decide, rfl, rfl, rfl, rfl, rfl,
    c5_errors_are_values c5_env1 c5_env2 c5_env3 "nope" "nope" "nope" "boom"
      (by decide) rfl (by decide) rfl rfl (by decide) rfl rfl⟩

/-- C7: a slug absent from the loaded webhook mapping (which is empty
when `execution/webhooks.json` is absent) makes `POST /webhook/{slug}`
return an HTTP 404 with no script execution and no directive
execution. -/
theorem c7_unknown_slug_404 (env : ServerEnv) (slug : String) (max_turns : Nat)
    (h : (load_webhook_config env.webhookFile).lookup slug = none) :
    execute_webhook env slug max_turns
      = (.error (404, "Unknown webhook slug: " ++ slug), ⟨false, false⟩)
    ∧ (env.webhookFile = none → load_webhook_config env.webhookFile = []) := by
  constructor
  · simp [execute_webhook, h]
  · intro hn
    simp [load_webhook_config, hn]

/-- C7 witness: the theorem applied to a server environment with no
webhook configuration file. -/
theorem c7_unknown_slug_404_witness :
    (load_webhook_config c7_env.webhookFile).lookup "nope" = none
    ∧ (execute_webhook c7_env "nope" 15
          = (.error (404, "Unknown webhook slug: " ++ "nope"), ⟨false, false⟩)
      ∧ (c7_env.webhookFile = none → load_webhook_config c7_env.webhookFile = [])) :=
  ⟨rfl, c7_unknown_slug_404 c7_env "nope" 15 rfl⟩

/-- C9: with reranking disabled, `rerank(query, chunks, top_k)` returns
exactly `chunks[:top_k]` in the original vector-search order,
unchanged. -/
theorem c9_rerank_fallback :
    ∀ (rescore : String → RChunk → Int) (q : String) (chunks : List RChunk) (top_k : Nat),
      rerank false rescore q chunks top_k = chunks.take top_k := by
  intro rescore q chunks top_k
  rfl

/-- C10: when initial retrieval returns zero chunks, `query()` returns
the literal fallback answer string with an empty sources list and makes
zero generation-model calls. -/
theorem c10_empty_retrieval_fallback (env : QueryEnv) (q : String)
    (h : env.retrieve q = []) :
    query env q = (⟨FALLBACK_ANSWER, [], q⟩, 0) := by
  simp [query, h]

/-- C10 witness: the theorem applied to a concrete environment whose
retrieval is empty. -/
theorem c10_empty_retrieval_fallback_witness :
    c10_env.retrieve "hello" = []
    ∧ query c10_env "hello" = (⟨FALLBACK_ANSWER, [], "hello"⟩, 0) :=
  ⟨rfl, c10_empty_retrieval_fallback c10_env "hello" rfl⟩

/-- The per-turn security check satisfies the gating property: a
disallowed tool name gets the "not permitted" error turn with no
execution, and an executed turn implies the name was allowed and had an
implementation. -/
theorem processToolUse_gating (execTool : String → String → Except String String)
    (allowed : List String) (tu : ToolUseBlock) :
    (tu.name ∉ allowed →
      processToolUse execTool allowed tu
        = ⟨.errDict ("Tool " ++ tu.name ++ " not permitted"), true, false⟩)
    ∧ ((processToolUse execTool allowed tu).executed = true →
        tu.name ∈ allowed ∧ tu.name ∈ TOOL_IMPLEMENTATION_KEYS) := by
  constructor
  · intro h
    simp [processToolUse, h]
  · intro h
    by_cases h1 : tu.name ∈ allowed
    · by_cases h2 : tu.name ∈ TOOL_IMPLEMENTATION_KEYS
      · exact ⟨h1, h2⟩
      · simp [processToolUse, h1, h2] at h
    · simp [processToolUse, h1] at h

/-- The gating property is an invariant of the tool-use loop: if every
logged record and invocation satisfies it on entry, the same holds for
the state the loop returns. -/
theorem directiveLoop_gating (oracle : Nat → ModelResponse)
    (execTool : String → String → Except String String) (allowed : List String) :
    ∀ (fuel : Nat) (resp : ModelResponse) (st : LoopState),
      (∀ r ∈ st.records, recordOK allowed r) →
      (∀ inv ∈ st.invocations, inv.name ∈ allowed ∧ inv.name ∈ TOOL_IMPLEMENTATION_KEYS) →
      (∀ r ∈ (directiveLoop oracle execTool allowed fuel resp st).2.records,
          recordOK allowed r)
      ∧ (∀ inv ∈ (directiveLoop oracle execTool allowed fuel resp st).2.invocations,
          inv.name ∈ allowed ∧ inv.name ∈ TOOL_IMPLEMENTATION_KEYS) := by
  intro fuel
  induction fuel with
  | zero =>
      intro resp st h1 h2
      exact ⟨h1, h2⟩
  | succ fuel ih =>
      intro resp st h1 h2
      rw [directiveLoop]
      split
      · cases hf : findToolUse resp.content with
        | none => exact ⟨h1, h2⟩
        | some tu =>
            apply ih
            · intro r hr
              rcases List.mem_append.mp hr with hr | hr
              · exact h1 r hr
              · rw [List.mem_singleton] at hr
                subst hr
                constructor
                · intro hn
                  have ht := (processToolUse_gating execTool allowed tu).1 hn
                  rw [ht]
                  exact ⟨rfl, rfl, rfl⟩
                · intro he
                  exact (processToolUse_gating execTool allowed tu).2 he
            · intro inv hinv
              rcases List.mem_append.mp hinv with hinv | hinv
              · exact h2 inv hinv
              · by_cases he : (processToolUse execTool allowed tu).executed = true
                · rw [if_pos he, List.mem_singleton] at hinv
                  subst hinv
                  exact (processToolUse_gating execTool allowed tu).2 he
                · rw [if_neg he] at hinv
                  exact absurd hinv (List.not_mem_nil inv)
      · exact ⟨h1, h2⟩

/-- C1: in `run_directive`, a tool named outside `allowed_tools` is never
executed — its turn is logged with `executed = false` and the
"not permitted" error as `tool_result` — and every actual
tool-implementation invocation is of a tool that is both in
`allowed_tools` and in `TOOL_IMPLEMENTATIONS`. -/
theorem c1_tool_gating (oracle : Nat → ModelResponse)
    (execTool : String → String → Except String String)
    (allowed : List String) (max_turns : Nat) :
    (∀ r ∈ (run_directive oracle execTool allowed max_turns).2.records,
        recordOK allowed r)
    ∧ (∀ inv ∈ (run_directive oracle execTool allowed max_turns).2.invocations,
        inv.name ∈ allowed ∧ inv.name ∈ TOOL_IMPLEMENTATION_KEYS) := by
  apply directiveLoop_gating
  · intro r hr
    exact absurd hr (List.not_mem_nil r)
  · intro inv hinv
    exact absurd hinv (List.not_mem_nil inv)

/-- C1 witness: with a concrete oracle requesting the disallowed tool
`rm_all`, the single logged turn record shows the error result and no
execution, and satisfies the gating property by the theorem. -/
theorem c1_tool_gating_witness :
    (⟨1, "rm_all", "x", .errDict "Tool rm_all not permitted", true, false⟩ : TurnRecord)
        ∈ (run_directive w1_oracle w1_exec ["send_email"] 3).2.records
    ∧ recordOK ["send_email"]
        ⟨1, "rm_all", "x", .errDict "Tool rm_all not permitted", true, false⟩ :=
  ⟨by decide,
    (c1_tool_gating w1_oracle w1_exec ["send_email"] 3).1
      ⟨1, "rm_all", "x", .errDict "Tool rm_all not permitted", true, false⟩ (by decide)⟩

/-- Per-turn counters of the loop grow by at most the available fuel. -/
theorem directiveLoop_bounds (oracle : Nat → ModelResponse)
    (execTool : String → String → Except String String) (allowed : List String) :
    ∀ (fuel : Nat) (resp : ModelResponse) (st : LoopState),
      (directiveLoop oracle execTool allowed fuel resp st).2.turn_count
          ≤ st.turn_count + fuel
      ∧ (directiveLoop oracle execTool allowed fuel resp st).2.api_calls
          ≤ st.api_calls + fuel
      ∧ (directiveLoop oracle execTool allowed fuel resp st).2.records.length
          ≤ st.records.length + fuel
      ∧ (directiveLoop oracle execTool allowed fuel resp st).2.invocations.length
          ≤ st.invocations.length + fuel := by
  intro fuel
  induction fuel with
  | zero =>
      intro resp st
      exact ⟨Nat.le_refl _, Nat.le_refl _, Nat.le_refl _, Nat.le_refl _⟩
  | succ fuel ih =>
      intro resp st
      rw [directiveLoop]
      split
      · cases hf : findToolUse resp.content with
        | none =>
            refine ⟨?_, ?_, ?_, ?_⟩ <;> simp
        | some tu =>
            obtain ⟨b1, b2, b3, b4⟩ :=
              ih (oracle st.api_calls)
                (loopStateStep st tu (processToolUse execTool allowed tu) (oracle st.api_calls))
            have hrec : (loopStateStep st tu (processToolUse execTool allowed tu)
                (oracle st.api_calls)).records.length = st.records.length + 1 := by
              simp [loopStateStep]
            have hinv : (loopStateStep st tu (processToolUse execTool allowed tu)
                (oracle st.api_calls)).invocations.length ≤ st.invocations.length + 1 := by
              simp only [loopStateStep, List.length_append]
              split <;> simp
            refine ⟨?_, ?_, ?_, ?_⟩
            · exact le_trans b1 (by simp [loopStateStep]; omega)
            · exact le_trans b2 (by simp [loopStateStep]; omega)
            · exact le_trans b3 (by omega)
            · exact le_trans b4 (by omega)
      · exact ⟨Nat.le_add_right _ _, Nat.le_add_right _ _, Nat.le_add_right _ _,
          Nat.le_add_right _ _⟩

/-- C6: the agent loop of run_directive is bounded: with `max_turns = n` the
loop processes at most `n` tool turns, makes at most `n` tool executions
and at most `n + 1` model API calls, and the returned `turn_count` never
exceeds `n`. -/
theorem c6_loop_bounded (oracle : Nat → ModelResponse)
    (execTool : String → String → Except String String)
    (allowed : List String) (max_turns : Nat) :
    (run_directive oracle execTool allowed max_turns).2.turn_count ≤ max_turns
    ∧ (run_directive oracle execTool allowed max_turns).2.records.length ≤ max_turns
    ∧ (run_directive oracle execTool allowed max_turns).2.invocations.length ≤ max_turns
    ∧ (run_directive oracle execTool allowed max_turns).2.api_calls ≤ max_turns + 1 := by
  obtain ⟨b1, b2, b3, b4⟩ :=
    directiveLoop_bounds oracle execTool allowed max_turns (oracle 0)
      ⟨0, 1, [], [], (oracle 0).input_tokens, (oracle 0).output_tokens⟩
  refine ⟨?_, ?_, ?_, ?_⟩
  · simpa using b1
  · simpa using b3
  · simpa using b4
  · simpa [Nat.add_comm] using b2

/-- Every chunk the builder emits for one post carries the id derived
from the post id in its own metadata and the first 100 characters of its
text. -/
theorem chunksForPost_id (max_tokens : Nat) (p : Post) (cs : List Comment) :
    ∀ c ∈ chunksForPost max_tokens p cs, c.id = chunk_id c.metadata.post_id c.text := by
  intro c hc
  simp only [chunksForPost] at hc
  split at hc
  · rw [List.mem_singleton] at hc
    subst hc
    rfl
  · rcases List.mem_cons.mp hc with h | h
    · subst h
      rfl
    · obtain ⟨t, _, rfl⟩ := List.mem_map.mp h
      rfl

/-- C8: chunk ids are deterministic and idempotent — every chunk emitted
by the builder has `id = chunk_id post_id text` (the truncated hash of
the post id plus the first 100 characters of its text), and running the
builder twice on a fixed Post and Comment list produces identical chunk
lists, hence identical sets of chunk ids. -/
theorem c8_chunk_ids_deterministic (posts : List Post)
    (comments_by_post : String → List Comment) (max_tokens : Nat) :
    (create_chunks posts comments_by_post max_tokens).map (fun c => c.id)
      = (create_chunks posts comments_by_post max_tokens).map
          (fun c => chunk_id c.metadata.post_id c.text)
    ∧ create_chunks posts comments_by_post max_tokens
      = create_chunks posts comments_by_post max_tokens := by
  refine ⟨?_, rfl⟩
  apply List.map_congr_left
  intro c hc
  obtain ⟨p, _, hcp⟩ := List.mem_flatMap.mp hc
  exact chunksForPost_id max_tokens p _ c hcp

end Spec2Proof
